import Mathlib

/- Shallow embedding of `src/app.py`: a `WeatherStation` subject holding a
   temperature and a registry of observers, with two concrete observers,
   `CurrentConditionsDisplay` (renders the current value) and
   `StatisticsDisplay` (keeps a history and reports avg/max/min).
   Observers are identified by numeric ids; Python's `None` used for the
   unset temperature is modelled by `Option.none`. -/

/-- Error raised by Python's `list.remove` when the element is absent
(`ValueError`). -/
inductive PyErr where
  | valueError
deriving DecidableEq

/-- Object-level state of the program.  In `src/app.py` the fields
`WeatherStation._observers` (line 47) and `StatisticsDisplay._temperatures`
(line 138) are declared as class attributes initialised with a mutable list,
so a single list object is shared by every instance of the class.
`_temperature` (line 48) is only ever rebound by plain assignment
(`self._temperature = temperature`, line 83), which creates a per-instance
attribute, so temperatures are per station instance (ids index instances). -/
structure App.World where
  observers : List Nat
  temperatureOf : Nat → Option Int
  temperatures : List Int

/-- Fresh interpreter state: no observers added anywhere, no temperature set
on any station, empty statistics history. -/
def App.freshWorld : App.World :=
  ⟨[], fun _ => none, []⟩

/-- `WeatherStation.add_observer` (src/app.py lines 50-57) called on station
`sid`: `self._observers.append(observer)` mutates the class-level list, so
which station instance the call was made on does not matter. -/
def App.add_observer (w : App.World) (_sid : Nat) (o : Nat) : App.World :=
  { w with observers := w.observers ++ [o] }

/-- Observer sequence that station `sid` sees: attribute lookup of
`self._observers` resolves to the shared class attribute. -/
def App.observersOf (w : App.World) (_sid : Nat) : List Nat :=
  w.observers

/-- `WeatherStation.change_temperature` (src/app.py lines 76-84) on station
`sid`: assigns `self._temperature = temperature`, creating or rebinding the
per-instance attribute of that station.  Only the state mutation is modelled
here; `App.notified` gives the observers a pass started now would invoke. -/
def App.change_temperature (w : App.World) (sid : Nat) (t : Int) : App.World :=
  { w with temperatureOf := fun s => if s = sid then some t else w.temperatureOf s }

/-- The `temperature` property (src/app.py lines 86-93) of station `sid`:
returns the instance attribute when set, otherwise the class default `None`. -/
def App.temperature (w : App.World) (sid : Nat) : Option Int :=
  w.temperatureOf sid

/-- Observers invoked by `notify_observers` running on station `sid`
(src/app.py lines 68-74): the loop runs over `self._observers`, which is the
class-level list.  The concrete observer classes of the source never mutate
the registry during `update`, so the invoked sequence equals the list at the
start of the pass. -/
def App.notified (w : App.World) (sid : Nat) : List Nat :=
  App.observersOf w sid

/-- `StatisticsDisplay.update` (src/app.py lines 140-148) delivered to
display instance `did` with current temperature `t`:
`self._temperatures.append(...)` mutates the class-level list shared by all
`StatisticsDisplay` instances, so `did` does not matter. -/
def App.statistics_update (w : App.World) (_did : Nat) (t : Int) : App.World :=
  { w with temperatures := w.temperatures ++ [t] }

/-- Temperature history that display instance `did` sees: attribute lookup of
`self._temperatures` resolves to the shared class attribute. -/
def App.historyOf (w : App.World) (_did : Nat) : List Int :=
  w.temperatures

/-- Run a sequence of `change_temperature` calls, each given as
`(station id, value)`. -/
def App.runSets (w : App.World) : List (Nat × Int) → App.World
  | [] => w
  | (s, v) :: rest => App.runSets (App.change_temperature w s v) rest

/-- Characterisation following the spec's wording for the accessor contract:
the value of the most recent `set_state` call made on station `s`, or none if
that station was never set.  Used to compare `App.temperature` against. -/
def App.specLastSet (s : Nat) (calls : List (Nat × Int)) : Option Int :=
  (calls.reverse.find? (fun c => c.1 == s)).map Prod.snd

/-- Single-station view of the subject used by the notification protocol:
the observer sequence and the current temperature of one `WeatherStation`. -/
structure WS where
  observers : List Nat
  temperature : Option Int
deriving DecidableEq

/-- Python's `list.remove(x)`: drops the first occurrence of `x`, raising
`ValueError` when no occurrence exists.  Used by
`WeatherStation.remove_observer` (src/app.py line 65). -/
def list_remove (x : Nat) : List Nat → Except PyErr (List Nat)
  | [] => .error .valueError
  | y :: ys =>
      if y = x then .ok ys
      else (list_remove x ys).map (fun l => y :: l)

/-- `WeatherStation.remove_observer` (src/app.py lines 59-66):
`self._observers.remove(observer)`, with the `ValueError` propagating to the
caller when the observer is absent. -/
def WeatherStation.remove_observer (ws : WS) (o : Nat) : Except PyErr WS :=
  (list_remove o ws.observers).map (fun l => { ws with observers := l })

/-- `WeatherStation.add_observer` (src/app.py lines 50-57): append to the
observer sequence. -/
def WeatherStation.add_observer (ws : WS) (o : Nat) : WS :=
  { ws with observers := ws.observers ++ [o] }

/-- Add a whole list of observers in order by repeated `add_observer`. -/
def addObservers (ws : WS) : List Nat → WS
  | [] => ws
  | o :: os => addObservers (WeatherStation.add_observer ws o) os

/-- Iteration model of `for observer in self._observers: observer.update(self)`
(src/app.py lines 73-74).  CPython's list iterator keeps an index into the
live list, so an `update` that mutates the list changes which elements the
remaining iterations see; there is no snapshot.  `eff o` is the registry
mutation performed by observer `o`'s `update` (the source's concrete
observers perform none, but the protocol claims also quantify over observers
that call add/remove).  Each trace entry records the invoked observer
together with the temperature its `update` reads through the `temperature`
property at that moment.  `fuel` bounds the number of iterations;
`ws.observers.length` iterations are exactly enough whenever no `update`
grows the list, which covers every population considered here. -/
def notifyLoop (eff : Nat → List Nat → List Nat) :
    Nat → Nat → WS → List (Nat × Option Int) × WS
  | 0, _, ws => ([], ws)
  | fuel + 1, i, ws =>
    match ws.observers[i]? with
    | none => ([], ws)
    | some x =>
      let r := notifyLoop eff fuel (i + 1) { ws with observers := eff x ws.observers }
      ((x, ws.temperature) :: r.1, r.2)

/-- `WeatherStation.notify_observers` (src/app.py lines 68-74). -/
def WeatherStation.notify_observers (eff : Nat → List Nat → List Nat) (ws : WS) :
    List (Nat × Option Int) × WS :=
  notifyLoop eff ws.observers.length 0 ws

/-- `WeatherStation.change_temperature` (src/app.py lines 76-84): assign
`self._temperature = temperature` (no validation of the value), then call
`self.notify_observers()`.  Returns the final state and the trace of the
notification pass. -/
def WeatherStation.change_temperature (eff : Nat → List Nat → List Nat)
    (ws : WS) (t : Int) : WS × List (Nat × Option Int) :=
  let r := WeatherStation.notify_observers eff { ws with temperature := some t }
  (r.2, r.1)

/-- Update effect of observers that do not touch the registry, as the
source's `CurrentConditionsDisplay` and `StatisticsDisplay` do not. -/
def pureEff : Nat → List Nat → List Nat :=
  fun _ l => l

/-- Total model of Python's `list.remove` for a call site where the element
is present: drop the first occurrence, identity when absent. -/
def removeFirst (x : Nat) : List Nat → List Nat
  | [] => []
  | y :: ys => if y = x then ys else y :: removeFirst x ys

/-- Update effect in which observer 2's `update` removes observer 2 itself
from the registry (calls `remove_observer` on the subject) while every other
observer is passive. -/
def selfRemoveEff : Nat → List Nat → List Nat :=
  fun x l => if x = 2 then removeFirst 2 l else l

/-- Notification pass in which observer `o`'s `update` raises an exception
iff `fails o = true`, and no observer mutates the registry (so live-list
iteration coincides with traversal of the sequence).  Returns the observers
whose `update` was invoked, paired with `false` when the pass was aborted by
the exception: src/app.py has no try/except anywhere, so the first exception
propagates out of the loop at once. -/
def notifyFail (fails : Nat → Bool) : List Nat → List Nat × Bool
  | [] => ([], true)
  | x :: xs =>
      if fails x then ([x], false)
      else
        let r := notifyFail fails xs
        (x :: r.1, r.2)

/-- `change_temperature` for a population of observers whose `update` may
raise: the new value is assigned before `notify_observers` starts, so the
assignment survives the exception.  Returns the final station state, the
invoked observers and the completion flag. -/
def WeatherStation.change_temperature_failing (fails : Nat → Bool) (ws : WS)
    (t : Int) : WS × List Nat × Bool :=
  let ws' : WS := { ws with temperature := some t }
  let r := notifyFail fails ws'.observers
  (ws', r.1, r.2)

/-- Round-half-up of `10 * s / n` for `n > 0`: the one-decimal rendering
(`f"{avg:.1f}"`, src/app.py line 157) of the average `s / n`, expressed in
tenths.  At every input evaluated in this development `100 * s / n` is not an
exact odd multiple of 5, so Python's half-to-even and half-up agree. -/
def roundTenths (s n : Int) : Int :=
  (20 * s + n).fdiv (2 * n)

/-- `StatisticsDisplay._display_statistics` (src/app.py lines 150-157):
`avg_temp = sum(h) / len(h)` (a `ZeroDivisionError` when the history is
empty, modelled as `none`), `max_temp = max(h)`, `min_temp = min(h)`; the
average is reported through the `:.1f` format, modelled in tenths. -/
def StatisticsDisplay.display_statistics (hist : List Int) :
    Option (Int × Int × Int) :=
  match hist with
  | [] => none
  | h :: t =>
      some (roundTenths (h :: t).sum ((h :: t).length : Int), t.foldl max h, t.foldl min h)

/-- `StatisticsDisplay.update` (src/app.py lines 140-148): append the
station's current temperature to the history, then compute the statistics
over the whole history.  It is only called from a notification pass, which
`change_temperature` starts right after assigning the new value, so the
temperature read is the just-set integer. -/
def StatisticsDisplay.update (hist : List Int) (t : Int) :
    List Int × Option (Int × Int × Int) :=
  let h := hist ++ [t]
  (h, StatisticsDisplay.display_statistics h)

/-- Observable state of the demo wiring (src/app.py lines 160-176): one
`WeatherStation` observed by `[CurrentConditionsDisplay, StatisticsDisplay]`
in that registration order. -/
structure DemoState where
  temperature : Option Int
  displayReports : List (Option Int)
  temperaturesHist : List Int
  statsReports : List (List Int × Option (Int × Int × Int))
deriving DecidableEq

/-- Demo state right after wiring, before any temperature change. -/
def demoInit : DemoState :=
  ⟨none, [], [], []⟩

/-- One `change_temperature` call of the demo: assign the temperature, then
notify `CurrentConditionsDisplay` (renders `subject.temperature`) followed by
`StatisticsDisplay` (appends the reading and reports statistics over the full
history).  Each statistics report records the history at that notification
together with the average in rounded tenths, the maximum and the minimum. -/
def demoStep (s : DemoState) (t : Int) : DemoState :=
  let u := StatisticsDisplay.update s.temperaturesHist t
  { temperature := some t
    displayReports := s.displayReports ++ [some t]
    temperaturesHist := u.1
    statsReports := s.statsReports ++ [(u.1, u.2)] }

/-- Run the demo over a list of temperature changes. -/
def demoRun (ts : List Int) : DemoState :=
  ts.foldl demoStep demoInit

/-- Helper for C3: `list.remove` on a list without an occurrence of the
element raises `ValueError`. -/
theorem list_remove_absent (o : Nat) :
    ∀ l : List Nat, o ∉ l → list_remove o l = .error .valueError := by
  intro l
  induction l with
  | nil => intro _; rfl
  | cons y ys ih =>
      intro h
      have hy : ¬ y = o := fun he => h (he ▸ List.mem_cons_self y ys)
      have hys : o ∉ ys := fun hm => h (List.mem_cons_of_mem y hm)
      simp [list_remove, hy, ih hys, Except.map]

/-- C1: the claim of one independent registry per `WeatherStation` instance
fails on the code: `_observers` is a class attribute, so it is shared
between instances.  Adding observer 7 to station 0 makes it appear in
station 1's observer sequence, and a `change_temperature` on station 1 then
notifies the observer that was added only to station 0. -/
theorem c1_registry_shared_across_stations :
    App.observersOf (App.add_observer App.freshWorld 0 7) 1 = [7] ∧
    App.notified (App.change_temperature (App.add_observer App.freshWorld 0 7) 1 5) 1 = [7] :=
  ⟨rfl, rfl⟩

/-- C2: the claim that a pass delivers to the sequence as of the start of the
call fails on the code: `notify_observers` iterates the live list with no
snapshot, so with registry `[1, 2, 3]`, when observer 2's `update` removes
observer 2, the pass invokes only observers 1 and 2 and observer 3 is
skipped. -/
theorem c2_no_snapshot_skips_observer :
    ((WeatherStation.change_temperature selfRemoveEff ⟨[1, 2, 3], none⟩ 10).2.map Prod.fst
      = [1, 2]) ∧
    (((WeatherStation.change_temperature selfRemoveEff ⟨[1, 2, 3], none⟩ 10).2.map
        Prod.fst).elem 3 = false) := by
  decide

/-- C3 (counterexample): removing a never-added observer is not a silent
no-op: the underlying `list.remove` raises `ValueError`, so `remove_observer`
of observer 5 on a station with an empty registry returns the error rather
than the unchanged registry. -/
theorem c3_remove_absent_raises :
    WeatherStation.remove_observer ⟨[], none⟩ 5 = Except.error PyErr.valueError :=
  rfl

/-- C3 (amended): for every observer not present in the registry,
`remove_observer` raises `ValueError`; the exception fires before any
mutation, so no removal occurs. -/
theorem c3_remove_absent_amended (ws : WS) (o : Nat) (h : o ∉ ws.observers) :
    WeatherStation.remove_observer ws o = Except.error PyErr.valueError := by
  unfold WeatherStation.remove_observer
  rw [list_remove_absent o ws.observers h]
  rfl

/-- C3 (witness for the amended claim at a concrete input). -/
theorem c3_remove_absent_amended_witness :
    WeatherStation.remove_observer ⟨[1, 2], none⟩ 5 = Except.error PyErr.valueError :=
  c3_remove_absent_amended ⟨[1, 2], none⟩ 5 (by decide)

/-- C4: the claim of one independent history per `StatisticsDisplay`
instance fails on the code: `_temperatures` is a class attribute, so it is
shared between instances.  After a single notification delivered to display
0, display 1's history already has length 1 although display 1 has received
no notification since its creation. -/
theorem c4_history_shared_across_displays :
    App.historyOf (App.statistics_update App.freshWorld 0 24) 1 = [24] ∧
    (App.historyOf App.freshWorld 1).length = 0 :=
  ⟨rfl, rfl⟩

/-- C9: the demo scenario: with observers `[Display, Stats]` and the calls
`change_temperature 24, 29, 15`, the display reports 24, then 29, then 15
(the most recent value only), and the statistics observer reports over the
histories `[24]`, `[24, 29]`, `[24, 29, 15]` the average (in rounded tenths)
/ maximum / minimum values 240/24/24, then 265/29/24, then 227/29/15, each
recomputed over the entire retained history. -/
theorem c9_demo_scenario :
    demoRun [24, 29, 15] =
      { temperature := some 15
        displayReports := [some 24, some 29, some 15]
        temperaturesHist := [24, 29, 15]
        statsReports :=
          [([24], some (240, 24, 24)),
           ([24, 29], some (265, 29, 24)),
           ([24, 29, 15], some (227, 29, 15))] } := by
  decide

/-- C10: the division by the history length never divides by zero:
`StatisticsDisplay.update` appends the reading before computing the
statistics, so `display_statistics` always runs on a nonempty history and
the average is well-defined (the `none` branch modelling the
`ZeroDivisionError` is never taken from `update`). -/
theorem c10_stats_division_safe (hist : List Int) (t : Int) :
    (StatisticsDisplay.update hist t).2.isSome = true := by
  unfold StatisticsDisplay.update
  cases hist <;> simp [StatisticsDisplay.display_statistics]

/-- Helper for C5: running a batch of `change_temperature` calls from any
world, the accessor of station `s` yields the most recent value set on `s`
in the batch, falling back to the prior world when the batch never sets `s`. -/
theorem runSets_temperature (calls : List (Nat × Int)) :
    ∀ (w : App.World) (s : Nat),
      App.temperature (App.runSets w calls) s
        = (App.specLastSet s calls).or (App.temperature w s) := by
  induction calls with
  | nil => intro w s; rfl
  | cons c rest ih =>
      intro w s
      obtain ⟨s', v⟩ := c
      have h1 : App.specLastSet s ((s', v) :: rest)
          = (App.specLastSet s rest).or (if s' == s then some v else none) := by
        unfold App.specLastSet
        rw [List.reverse_cons, List.find?_append]
        by_cases hp : s' == s
        · cases hf : rest.reverse.find? (fun c => c.1 == s) <;>
            simp [hf, List.find?, hp, Option.or]
        · cases hf : rest.reverse.find? (fun c => c.1 == s) <;>
            simp [hf, List.find?, hp, Option.or]
      have h2 : App.temperature (App.change_temperature w s' v) s
          = if s' == s then some v else App.temperature w s := by
        simp only [App.temperature, App.change_temperature]
        by_cases hss : s = s'
        · simp [hss]
        · have hne : (s' == s) = false := beq_eq_false_iff_ne.mpr (Ne.symm hss)
          simp [hss, hne]
      rw [App.runSets, ih (App.change_temperature w s' v) s, h1, h2]
      cases App.specLastSet s rest <;> by_cases hp : s' == s <;> simp [hp, Option.or]

/-- C5: the temperature accessor returns `none` (Python `None`, the Absent
sentinel, which is distinguishable from `some 0`) for every station on which
`change_temperature` was never called, and after any sequence of
`change_temperature` calls it returns exactly the value of the most recent
call made on that station. -/
theorem c5_temperature_accessor (calls : List (Nat × Int)) (s : Nat) :
    App.temperature (App.runSets App.freshWorld calls) s = App.specLastSet s calls ∧
    App.temperature App.freshWorld s = none ∧
    (App.temperature App.freshWorld s == some 0) = false := by
  refine ⟨?_, rfl, rfl⟩
  rw [runSets_temperature]
  cases App.specLastSet s calls <;> rfl

/-- Helper for C6: `addObservers` appends the new observers in order and
leaves the temperature alone. -/
theorem addObservers_observers (os : List Nat) :
    ∀ ws : WS, addObservers ws os = ⟨ws.observers ++ os, ws.temperature⟩ := by
  induction os with
  | nil => intro ws; simp [addObservers]
  | cons o rest ih =>
      intro ws
      rw [addObservers, ih]
      simp [WeatherStation.add_observer]

/-- Helper for C6: with observers that do not mutate the registry, the loop
started at index `i` with enough fuel visits exactly the elements from `i`
on, each paired with the unchanged temperature. -/
theorem notifyLoop_pure (temp : Option Int) :
    ∀ (fuel i : Nat) (obs : List Nat), obs.length ≤ i + fuel →
      notifyLoop pureEff fuel i ⟨obs, temp⟩
        = ((obs.drop i).map (fun o => (o, temp)), ⟨obs, temp⟩) := by
  intro fuel
  induction fuel with
  | zero =>
      intro i obs h
      rw [notifyLoop]
      rw [List.drop_eq_nil_of_le (by omega)]
      rfl
  | succ fuel ih =>
      intro i obs h
      cases hget : obs[i]? with
      | none =>
          have hlen : obs.length ≤ i := by
            by_contra hc
            rw [List.getElem?_eq_getElem (by omega)] at hget
            exact Option.noConfusion hget
          rw [notifyLoop, hget, List.drop_eq_nil_of_le hlen]
          rfl
      | some x =>
          obtain ⟨hlt, hx⟩ := List.getElem?_eq_some.mp hget
          have hdrop : obs.drop i = x :: obs.drop (i + 1) := by
            rw [List.drop_eq_getElem_cons hlt, hx]
          rw [notifyLoop, hget]
          simp only [pureEff]
          rw [ih (i + 1) obs (by omega), hdrop]
          rfl

/-- Helper for C6: a full `change_temperature` pass over observers that do
not mutate the registry delivers to every observer in sequence order, each
reading the new temperature. -/
theorem change_temperature_pure_trace (os : List Nat) (temp0 : Option Int) (t : Int) :
    WeatherStation.change_temperature pureEff ⟨os, temp0⟩ t
      = (⟨os, some t⟩, os.map (fun o => (o, some t))) := by
  have h := notifyLoop_pure (some t) os.length 0 os (by omega)
  change ((notifyLoop pureEff os.length 0 ⟨os, some t⟩).2,
      (notifyLoop pureEff os.length 0 ⟨os, some t⟩).1) = _
  rw [h]
  simp

/-- C6: on a fresh station, adding observers o1, ..., on and then calling
`change_temperature` once invokes `update` on exactly o1, ..., on, in strict
registration order, duplicates once per occurrence; the source's concrete
observers do not mutate the registry during `update`, which `pureEff`
records. -/
theorem c6_registration_order (os : List Nat) (t : Int) :
    (WeatherStation.change_temperature pureEff (addObservers ⟨[], none⟩ os) t).2.map
        Prod.fst = os := by
  have ha : addObservers ⟨[], none⟩ os = (⟨os, none⟩ : WS) := by
    rw [addObservers_observers]
    rfl
  rw [ha, change_temperature_pure_trace]
  show List.map Prod.fst (List.map (fun o => (o, some t)) os) = os
  rw [List.map_map]
  rw [show (Prod.fst ∘ fun o : Nat => (o, (some t : Option Int))) = id from rfl]
  rw [List.map_id]

/-- Helper for C7: the loop never changes the temperature, and every trace
entry records the temperature the pass started with. -/
theorem notifyLoop_temperature (eff : Nat → List Nat → List Nat) :
    ∀ (fuel i : Nat) (ws : WS),
      (((notifyLoop eff fuel i ws).1.map Prod.snd).all
          (fun v => v == ws.temperature) = true) ∧
      (notifyLoop eff fuel i ws).2.temperature = ws.temperature := by
  intro fuel
  induction fuel with
  | zero => intro i ws; exact ⟨rfl, rfl⟩
  | succ fuel ih =>
      intro i ws
      cases hget : ws.observers[i]? with
      | none =>
          rw [notifyLoop, hget]
          exact ⟨rfl, rfl⟩
      | some x =>
          rw [notifyLoop, hget]
          have h := ih (i + 1) { ws with observers := eff x ws.observers }
          constructor
          · simp only [List.map_cons, List.all_cons, beq_self_eq_true, Bool.true_and]
            exact h.1
          · exact h.2

/-- C7: `change_temperature` accepts any integer without validation, assigns
it as the current state before notification starts, and no registry mutation
performed by an `update` touches the temperature, so every observer invoked
during the pass reads the newly assigned value through the accessor, and the
call returns with that value as the state. -/
theorem c7_observers_read_new_value (eff : Nat → List Nat → List Nat)
    (ws : WS) (t : Int) :
    (((WeatherStation.change_temperature eff ws t).2.map Prod.snd).all
        (fun v => v == some t) = true) ∧
    (WeatherStation.change_temperature eff ws t).1.temperature = some t := by
  have h := notifyLoop_temperature eff ws.observers.length 0
      { ws with temperature := some t }
  exact ⟨h.1, h.2⟩

/-- Helper for C8: when every observer before `b` succeeds and `b` raises,
the pass invokes exactly the prefix up to and including `b` and reports the
abort. -/
theorem notifyFail_prefix (fails : Nat → Bool) :
    ∀ (pre : List Nat), (∀ x ∈ pre, fails x = false) →
      ∀ (b : Nat) (post : List Nat), fails b = true →
        notifyFail fails (pre ++ b :: post) = (pre ++ [b], false) := by
  intro pre
  induction pre with
  | nil =>
      intro _ b post hb
      simp [notifyFail, hb]
  | cons x xs ih =>
      intro hpre b post hb
      have hx : fails x = false := hpre x (List.mem_cons_self x xs)
      rw [List.cons_append, notifyFail]
      simp [hx, ih (fun y hy => hpre y (List.mem_cons_of_mem x hy)) b post hb]

/-- C8: when observer `b`'s `update` raises during the pass started by
`change_temperature` and every observer before `b` succeeds, exactly the
observers up to and including `b` are invoked — the ones after `b` in the
sequence are not notified — the fault propagates to the caller, and the
subject's temperature keeps the newly assigned value. -/
theorem c8_exception_aborts_pass (fails : Nat → Bool) (pre post : List Nat)
    (b : Nat) (temp0 : Option Int) (t : Int)
    (hpre : ∀ x ∈ pre, fails x = false) (hb : fails b = true) :
    (WeatherStation.change_temperature_failing fails ⟨pre ++ b :: post, temp0⟩ t).2.1
        = pre ++ [b] ∧
    (WeatherStation.change_temperature_failing fails ⟨pre ++ b :: post, temp0⟩ t).2.2
        = false ∧
    (WeatherStation.change_temperature_failing fails ⟨pre ++ b :: post, temp0⟩ t).1.temperature
        = some t := by
  have h := notifyFail_prefix fails pre hpre b post hb
  refine ⟨?_, ?_, rfl⟩
  · show (notifyFail fails (pre ++ b :: post)).1 = pre ++ [b]
    rw [h]
  · show (notifyFail fails (pre ++ b :: post)).2 = false
    rw [h]

/-- C8 (witness at a concrete input): registry [1, 2, 3], observer 2 raises. -/
theorem c8_exception_aborts_pass_witness :
    (WeatherStation.change_temperature_failing (fun x => x == 2)
        ⟨[1] ++ 2 :: [3], none⟩ 9).2.1 = [1] ++ [2] ∧
    (WeatherStation.change_temperature_failing (fun x => x == 2)
        ⟨[1] ++ 2 :: [3], none⟩ 9).2.2 = false ∧
    (WeatherStation.change_temperature_failing (fun x => x == 2)
        ⟨[1] ++ 2 :: [3], none⟩ 9).1.temperature = some 9 :=
  c8_exception_aborts_pass (fun x => x == 2) [1] [3] 2 none 9 (by decide) (by decide)
